import Mathlib

/-!
Shallow embedding of the edu-monitor backend services (Users, Classrooms,
Grades, Tasks) and proofs about the behaviour of their operations.

Modelling conventions, matching the JavaScript source of the services:

* Each DynamoDB collection is a list of records; `scan` with an equality or
  contains filter is `List.filter` / `List.find?`, and `put` is an upsert by
  the `id` key (`putBy`).
* Operations are pure functions taking a request context and the database
  state.  A mutating operation returns the pair of its result
  (`Except String result`, errors carrying the thrown message) and the list
  of store writes it performed, in order; `applyWrites` folds the writes
  into the state.
* Input-shape validation (the `parameter` rule sets), password hashing
  (`bcrypt`) and the RPC transport are external black boxes per the design:
  validation of well-formed arguments is modelled as passing, hashing as an
  uninterpreted tagging function.  A validation that is guaranteed to fail
  independently of the validator (a missing required argument, e.g. a lookup
  of an `undefined` id) is modelled as the error it throws.
* JavaScript quirks relevant to the code are embedded explicitly:
  `String.prototype.toLowerCase` (as `jsToLower`), `Array.prototype.splice`
  with a possibly negative start (`spliceOne`), `indexOf` returning -1
  (`jsIndexOf`), and the numeric coercion performed by the bitwise `|`
  operator (`jsBitOr`).
-/

namespace EduMonitor

/-- JS `String.prototype.toLowerCase`, restricted to the basic-latin mapping
(the only one id/email strings in this system exercise). -/
def jsToLower (s : String) : String := ⟨s.data.map Char.toLower⟩

theorem char_toNat_ofNat {n : Nat} (h : n.isValidChar) : (Char.ofNat n).toNat = n := by
  simp only [Char.ofNat, dif_pos h, Char.ofNatAux, Char.toNat, UInt32.toNat]
  rfl

theorem char_toLower_idem (c : Char) : c.toLower.toLower = c.toLower := by
  by_cases h : 65 ≤ c.toNat ∧ c.toNat ≤ 90
  · have hv : (c.toNat + 32).isValidChar := Or.inl (by omega)
    have h1 : c.toLower = Char.ofNat (c.toNat + 32) := by
      simp only [Char.toLower, ge_iff_le]
      rw [if_pos h]
    have h2 : c.toLower.toNat = c.toNat + 32 := by rw [h1, char_toNat_ofNat hv]
    conv_lhs => rw [Char.toLower]
    rw [h2, if_neg (by omega)]
  · have h1 : c.toLower = c := by
      simp only [Char.toLower, ge_iff_le]
      rw [if_neg h]
    rw [h1, h1]

theorem jsToLower_idem (s : String) : jsToLower (jsToLower s) = jsToLower s := by
  simp only [jsToLower, List.map_map]
  congr 1
  exact List.map_congr_left (fun c _ => char_toLower_idem c)

/-- JS `arr.splice(start, 1)`: a negative `start` counts from the end
(clamped at 0), a too-large `start` deletes nothing. -/
def spliceOne {α : Type} (l : List α) (start : Int) : List α :=
  let s : Nat := if start < 0 then ((l.length : Int) + start).toNat else start.toNat
  l.take s ++ l.drop (s + 1)

/-- JS `arr.indexOf(x)`: the first index of `x`, or -1 when absent. -/
def jsIndexOf (l : List String) (x : String) : Int :=
  match l.findIdx? (fun y => y == x) with
  | some i => (i : Int)
  | none => -1

inductive Role where
  | STUDENT
  | EDUCATOR
  | GUARDIAN
deriving DecidableEq

structure User where
  id : String
  email : String
  firstName : String
  lastName : String
  role : Role
  /-- `none` models the attribute being absent from the stored item. -/
  dependents : Option (List String)
  passwordHash : Option String
deriving DecidableEq

structure Classroom where
  id : String
  title : String
  instructor : String
  students : List String
deriving DecidableEq

structure GradeEntry where
  student : String
  score : Int
  comments : String
deriving DecidableEq

/-- A JS value as stored in the `total`/`weight` field of a grading
component: the schemaless store admits numbers and strings alike. -/
inductive Val where
  | num (n : Int)
  | str (s : String)
  | undef
deriving DecidableEq

structure Component where
  id : String
  title : String
  total : Val
  weight : Val
  classroom : String
  grades : List GradeEntry
deriving DecidableEq

structure Task where
  id : String
  title : String
  classroom : String
  deadline : String
  /-- `none`: the task is class-scoped (for the entire class). -/
  student : Option String
  completedStudents : List String
deriving DecidableEq

/-- The session user projection the services read (`id` and `role` are the
only fields the modelled operations consult). -/
structure SessionUser where
  id : String
  role : Role
deriving DecidableEq

/-- Request context: caller kind flags, session, and the Users::lookup
projection flags. -/
structure Ctx where
  isUser : Bool
  isSystem : Bool
  session : Option SessionUser
  includeDependents : Bool
  includePasswordHash : Bool
deriving DecidableEq

/-- The context the SDK client supplies for service-to-service calls. -/
def internalCtx : Ctx :=
  { isUser := false, isSystem := true, session := none,
    includeDependents := false, includePasswordHash := false }

structure DB where
  users : List User
  classrooms : List Classroom
  components : List Component
  tasks : List Task
deriving DecidableEq

/-- One DynamoDB `put` (upsert by primary key `id`). -/
inductive DbWrite where
  | putUser (u : User)
  | putClassroom (c : Classroom)
  | putComponent (c : Component)
  | putTask (t : Task)
deriving DecidableEq

/-- Upsert into a keyed collection: replace the record with the same key,
or append when the key is new. -/
def putBy {α : Type} (key : α → String) : List α → α → List α
  | [], x => [x]
  | v :: tl, x => if key v = key x then x :: tl else v :: putBy key tl x

def applyWrite (db : DB) : DbWrite → DB
  | .putUser u => { db with users := putBy User.id db.users u }
  | .putClassroom c => { db with classrooms := putBy Classroom.id db.classrooms c }
  | .putComponent c => { db with components := putBy Component.id db.components c }
  | .putTask t => { db with tasks := putBy Task.id db.tasks t }

def applyWrites (db : DB) (ws : List DbWrite) : DB := ws.foldl applyWrite db

/-! ## Users service (`src/users/index.js`) -/

/-- The field projection applied by `Users::lookup`: the sensitive
`dependents` and `passwordHash` attributes are returned only when the
context carries the corresponding flag. -/
def projectUser (ctx : Ctx) (u : User) : User :=
  { u with dependents := if ctx.includeDependents then u.dependents else none,
           passwordHash := if ctx.includePasswordHash then u.passwordHash else none }

/-- `Users::lookup(context, {id, email})`.  The scan filter is
`#id = :id AND/OR #email = :email` — AND when both arguments are present,
OR otherwise, with the value of an absent argument defaulting to `foobar`;
both comparands are lower-cased.  The first matching item (projected) is
returned, or `null`. -/
def usersLookup (ctx : Ctx) (idArg emailArg : Option String) (users : List User) :
    Except String (Option User) :=
  match idArg, emailArg with
  | none, none => .error "At least one of id or email must be declared"
  | _, _ =>
    let idv := (idArg.map jsToLower).getD "foobar"
    let emv := (emailArg.map jsToLower).getD "foobar"
    let hits := if idArg.isSome && emailArg.isSome
      then users.filter (fun v => v.id = idv ∧ v.email = emv)
      else users.filter (fun v => v.id = idv ∨ v.email = emv)
    .ok (hits.head?.map (projectUser ctx))

/-- The bcrypt one-way hash: an external black box; only the presence of
the stored hash matters to the properties proved here. -/
def bcryptHash (password : String) : String := "$2b$10$" ++ password

/-- `Users::signup(context, profile, password)`.  `genId` stands for the
freshly generated `uuid()`.  The duplicate-email check runs first; the
stored item carries the password hash, the returned record does not. -/
def signup (ctx : Ctx) (email firstName lastName : String) (role : Role)
    (password : String) (genId : String) (db : DB) :
    Except String User × List DbWrite :=
  match usersLookup ctx none (some email) db.users with
  | .error e => (.error e, [])
  | .ok (some _) => (.error "This email is already registered", [])
  | .ok none =>
    let user : User :=
      { id := jsToLower genId, email := jsToLower email,
        firstName := firstName, lastName := lastName, role := role,
        dependents := if role = Role.GUARDIAN then some [] else none,
        passwordHash := none }
    (.ok user, [DbWrite.putUser { user with passwordHash := some (bcryptHash password) }])

/-- `Users::addGuardian(context, email)`: student-only; looks the guardian
up with `includeDependents`, pushes the caller id if absent, writes the
guardian back, and strips `dependents` from the returned record. -/
def addGuardian (ctx : Ctx) (email : String) (db : DB) :
    Except String User × List DbWrite :=
  match ctx.session with
  | none => (.error "You are not logged in", [])
  | some u =>
    if u.role ≠ Role.STUDENT then (.error "Only students can add guardians", []) else
    match usersLookup { ctx with includeDependents := true } none (some email) db.users with
    | .error e => (.error e, [])
    | .ok none => (.error "User not found", [])
    | .ok (some guardian) =>
      if guardian.role ≠ Role.GUARDIAN then (.error "Adding user is not a guardian role", []) else
      match guardian.dependents with
      | none => (.error "TypeError: dependents is undefined", [])
      | some deps =>
        let deps2 := if u.id ∈ deps then deps else deps ++ [u.id]
        let stored := { guardian with dependents := some deps2 }
        (.ok { stored with dependents := none }, [DbWrite.putUser stored])

/-- `Users::removeGuardian(context, email)`: as `addGuardian`, but the
mutation is `dependents.splice(dependents.indexOf(callerId), 1)` with no
guard on `indexOf` returning -1. -/
def removeGuardian (ctx : Ctx) (email : String) (db : DB) :
    Except String User × List DbWrite :=
  match ctx.session with
  | none => (.error "You are not logged in", [])
  | some u =>
    if u.role ≠ Role.STUDENT then (.error "Only students can remove guardians", []) else
    match usersLookup { ctx with includeDependents := true } none (some email) db.users with
    | .error e => (.error e, [])
    | .ok none => (.error "User not found", [])
    | .ok (some guardian) =>
      if guardian.role ≠ Role.GUARDIAN then (.error "Removing user is not a guardian role", []) else
      match guardian.dependents with
      | none => (.error "TypeError: dependents is undefined", [])
      | some deps =>
        let deps2 := spliceOne deps (jsIndexOf deps u.id)
        let stored := { guardian with dependents := some deps2 }
        (.ok { stored with dependents := none }, [DbWrite.putUser stored])

/-- `Users::listGuardians` of the dual-mode users service in this repository
(the variant sibling services call), in its trusted-internal mode: scan for
users whose `dependents` contains the student, keep the GUARDIAN-role ones,
and return their ids. -/
def listGuardiansByDependent (users : List User) (studentId : String) : List String :=
  ((users.filter (fun v => studentId ∈ v.dependents.getD [])).filter
    (fun v => v.role = Role.GUARDIAN)).map User.id

namespace UsersV2

/-- `addGuardian` of the dual-mode users service: identical to the primary
variant except the guardian lookup also carries `includePasswordHash`. -/
def addGuardian (ctx : Ctx) (email : String) (db : DB) :
    Except String User × List DbWrite :=
  match ctx.session with
  | none => (.error "You are not logged in", [])
  | some u =>
    if u.role ≠ Role.STUDENT then (.error "Only students can add guardians", []) else
    match usersLookup { ctx with includeDependents := true, includePasswordHash := true }
        none (some email) db.users with
    | .error e => (.error e, [])
    | .ok none => (.error "User not found", [])
    | .ok (some guardian) =>
      if guardian.role ≠ Role.GUARDIAN then (.error "Adding user is not a guardian role", []) else
      match guardian.dependents with
      | none => (.error "TypeError: dependents is undefined", [])
      | some deps =>
        let deps2 := if u.id ∈ deps then deps else deps ++ [u.id]
        let stored := { guardian with dependents := some deps2 }
        (.ok { stored with dependents := none }, [DbWrite.putUser stored])

/-- `removeGuardian` of the dual-mode users service: the splice is guarded
by an `indexOf !== -1` check, so removing an absent entry is a no-op. -/
def removeGuardian (ctx : Ctx) (email : String) (db : DB) :
    Except String User × List DbWrite :=
  match ctx.session with
  | none => (.error "You are not logged in", [])
  | some u =>
    if u.role ≠ Role.STUDENT then (.error "Only students can remove guardians", []) else
    match usersLookup { ctx with includeDependents := true, includePasswordHash := true }
        none (some email) db.users with
    | .error e => (.error e, [])
    | .ok none => (.error "User not found", [])
    | .ok (some guardian) =>
      if guardian.role ≠ Role.GUARDIAN then (.error "Removing user is not a guardian role", []) else
      match guardian.dependents with
      | none => (.error "TypeError: dependents is undefined", [])
      | some deps =>
        let deps2 := if u.id ∈ deps then spliceOne deps (jsIndexOf deps u.id) else deps
        let stored := { guardian with dependents := some deps2 }
        (.ok { stored with dependents := none }, [DbWrite.putUser stored])

end UsersV2

/-! ## Classrooms service (`src/classrooms/index.js`) -/

/-- `Classrooms::lookup(context, id)`: `validate({id})` rejects a missing
id (the service is sometimes called with an `undefined` id by a buggy
caller), then a scan by id equality returns the classroom or `null`. -/
def classroomsLookup (classrooms : List Classroom) (idArg : Option String) :
    Except String (Option Classroom) :=
  match idArg with
  | none => .error "id required"
  | some i => .ok (classrooms.find? (fun c => c.id == i))

/-- `Classrooms::enroll(context, id, email)`: an EDUCATOR must instruct the
classroom and resolves `email` to a STUDENT via Users::lookup; a STUDENT
enrolls themself; the roster insert is guarded by an `indexOf` check and
the classroom is written back. -/
def enroll (ctx : Ctx) (id : String) (emailArg : Option String) (db : DB) :
    Except String Classroom × List DbWrite :=
  match ctx.session with
  | none => (.error "You are not logged in", [])
  | some u =>
    match db.classrooms.find? (fun c => c.id == id) with
    | none => (.error "Classroom not found", [])
    | some classroom =>
      let resolved : Except String String :=
        if u.role = Role.EDUCATOR then
          if classroom.instructor ≠ u.id then
            .error "Only the instructor of the class can enroll other people"
          else match usersLookup internalCtx none emailArg db.users with
            | .error e => .error e
            | .ok none => .error "User not found"
            | .ok (some user) =>
              if user.role ≠ Role.STUDENT then .error "Enrolling user is not a student"
              else .ok user.id
        else if u.role = Role.STUDENT then .ok u.id
        else .error "Only an instructor or student can enroll"
      match resolved with
      | .error e => (.error e, [])
      | .ok userId =>
        let students2 := if userId ∈ classroom.students then classroom.students
                         else classroom.students ++ [userId]
        let c2 := { classroom with students := students2 }
        (.ok c2, [DbWrite.putClassroom c2])

/-! ## Grades service (`src/grades/index.js`) -/

/-- `Grades::lookupGradingComponent`: unauthenticated scan by id. -/
def lookupGradingComponent (components : List Component) (componentId : String) :
    Option Component :=
  components.find? (fun c => c.id == componentId)

/-- A JS value as produced by `component.grades.find(...)` and the literal
`null` it is combined with. -/
inductive JsVal where
  | num (n : Int)
  | entry (g : GradeEntry)
  | nullv
  | undefv
deriving DecidableEq

def gradeToJs : Option GradeEntry → JsVal
  | some g => .entry g
  | none => .undefv

/-- ECMAScript `ToInt32`: numbers wrap to signed 32 bit; `undefined`,
`null` and plain objects coerce through `NaN` to 0. -/
def toInt32 : JsVal → Int
  | .num n => (n + 2 ^ 31) % 2 ^ 32 - 2 ^ 31
  | _ => 0

/-- The JS bitwise `|` operator (not the logical `||`). -/
def jsBitOr (a b : JsVal) : JsVal := .num (Int.lor (toInt32 a) (toInt32 b))

/-- `Grades::lookupGrade(context, componentId, studentId)`.  Role-dependent
authorization, then the source returns
`component.grades.find(grade => grade.student === studentId) | null` —
the bitwise `|`, which coerces both operands with `ToInt32`. -/
def lookupGrade (ctx : Ctx) (componentId studentId : String) (db : DB) :
    Except String JsVal :=
  match ctx.session with
  | none => .error "You are not logged in"
  | some u =>
    match lookupGradingComponent db.components componentId with
    | none => .error "Grading component not found"
    | some comp =>
      match classroomsLookup db.classrooms (some comp.classroom) with
      | .error e => .error e
      | .ok clsOpt =>
        if u.role = Role.EDUCATOR ∧ clsOpt = none then
          .error "TypeError: classroom is null"
        else if u.role = Role.EDUCATOR ∧ clsOpt.map Classroom.instructor ≠ some u.id then
          .error "Only the instructor of the class can post grades"
        else if u.role = Role.STUDENT ∧ u.id ≠ studentId then
          .error "You can only lookup your own grades"
        else if u.role = Role.GUARDIAN ∧
            u.id ∉ listGuardiansByDependent db.users studentId then
          .error "You can only lookup your own dependents grades"
        else
          .ok (jsBitOr (gradeToJs (comp.grades.find? (fun g => g.student == studentId)))
                JsVal.nullv)

/-- `Grades::postGrade(context, componentId, studentId, {score, comments})`:
educator-only; the classroom of the component is resolved, the caller must be
its instructor, the student must be enrolled, and a second entry for the
same student is rejected before anything is appended.  The single write
happens at the end. -/
def postGrade (ctx : Ctx) (componentId studentId : String) (score : Int)
    (comments : String) (db : DB) : Except String GradeEntry × List DbWrite :=
  match ctx.session with
  | none => (.error "You are not logged in", [])
  | some u =>
    if u.role ≠ Role.EDUCATOR then (.error "Only educators can add grading components", []) else
    match lookupGradingComponent db.components componentId with
    | none => (.error "Grading component not found", [])
    | some comp =>
      match classroomsLookup db.classrooms (some comp.classroom) with
      | .error e => (.error e, [])
      | .ok none => (.error "TypeError: classroom is null", [])
      | .ok (some classroom) =>
        if classroom.instructor ≠ u.id then
          (.error "Only the instructor of the class can post grades", [])
        else if studentId ∉ classroom.students then
          (.error "Student is not enrolled in this class", [])
        else if comp.grades.any (fun g => g.student == studentId) then
          (.error "This grade entry is already posted for the student", [])
        else
          let grade : GradeEntry := { student := studentId, score := score, comments := comments }
          let comp2 := { comp with grades := comp.grades ++ [grade] }
          (.ok grade, [DbWrite.putComponent comp2])

/-- JS `title || fallback` where `title` is an optional string. -/
def jsOrStr (o : Option String) (fallback : String) : String :=
  match o with
  | some t => if t = "" then fallback else t
  | none => fallback

/-- JS `title || fallback` where the fallback is an arbitrary stored value:
a truthy `title` replaces it with a string. -/
def jsOrVal (o : Option String) (fallback : Val) : Val :=
  match o with
  | some t => if t = "" then fallback else Val.str t
  | none => fallback

/-- `Grades::updateGradingComponent(context, componentId, {title, total,
weight})`.  After the component is found, the source resolves the
classroom with `client.Classrooms.lookup(componentId.classroom)` — but
`componentId` is a string, so the argument is `undefined` and the lookup
always fails.  The merge that would follow assigns `title || component.X`
to all three of `title`, `total` and `weight`. -/
def updateGradingComponent (ctx : Ctx) (componentId : String)
    (titleArg : Option String) (_totalArg _weightArg : Option Int) (db : DB) :
    Except String Component × List DbWrite :=
  match ctx.session with
  | none => (.error "You are not logged in", [])
  | some u =>
    if u.role ≠ Role.EDUCATOR then (.error "Only educators can add grading components", []) else
    match lookupGradingComponent db.components componentId with
    | none => (.error "Grading component not found", [])
    | some comp =>
      match classroomsLookup db.classrooms none with
      | .error e => (.error e, [])
      | .ok none => (.error "TypeError: classroom is null", [])
      | .ok (some classroom) =>
        if classroom.instructor ≠ u.id then
          (.error "Only the instructor of the class can update grading components", [])
        else
          let comp2 := { comp with
            title := jsOrStr titleArg comp.title,
            total := jsOrVal titleArg comp.total,
            weight := jsOrVal titleArg comp.weight }
          (.ok comp2, [DbWrite.putComponent comp2])

/-- One element of a `Grades::listGrades` result: component metadata plus
the entry of the subject student (or nothing). -/
structure GradeReport where
  id : String
  title : String
  total : Val
  weight : Val
  classroom : String
  grade : Option GradeEntry
deriving DecidableEq

/-- `Grades::listGrades(context, classroomId, studentId)`.  Role-dependent
authorization as in `lookupGrade`, then every component of the classroom is
mapped to a report — whose `grade` field the source computes from
`components.grades` (the scan result array, not the current element): that
property is `undefined`, so `.find` on it raises a TypeError as soon as the
classroom has at least one component. -/
def listGrades (ctx : Ctx) (classroomId studentId : String) (db : DB) :
    Except String (List GradeReport) :=
  match ctx.session with
  | none => .error "You are not logged in"
  | some u =>
    match classroomsLookup db.classrooms (some classroomId) with
    | .error e => .error e
    | .ok clsOpt =>
      if u.role = Role.EDUCATOR ∧ clsOpt = none then
        .error "TypeError: classroom is null"
      else if u.role = Role.EDUCATOR ∧ clsOpt.map Classroom.instructor ≠ some u.id then
        .error "Only the instructor of the class can post grades"
      else if u.role = Role.STUDENT ∧ u.id ≠ studentId then
        .error "You can only lookup your own grades"
      else if u.role = Role.GUARDIAN ∧
          u.id ∉ listGuardiansByDependent db.users studentId then
        .error "You can only lookup your own dependents grades"
      else
        let comps := db.components.filter (fun c => c.classroom == classroomId)
        if comps.isEmpty then .ok []
        else .error "TypeError: cannot read properties of undefined"

/-! ## Tasks service (`src/tasks/index.js`) -/

/-- `Tasks::lookup(context, id)`: requires a session, then a scan by id. -/
def tasksLookup (ctx : Ctx) (id : String) (db : DB) : Except String (Option Task) :=
  match ctx.session with
  | none => .error "You are not logged in"
  | some _ => .ok (db.tasks.find? (fun t => t.id == id))

/-- The completeness toggle of `Tasks::updateCompleteness`: a push guarded
by `indexOf === -1` when completing, a splice guarded by `indexOf !== -1`
when un-completing. -/
def toggleCompleted (uid : String) (completed : Bool) (cs : List String) : List String :=
  if completed
  then (if uid ∈ cs then cs else cs ++ [uid])
  else (if uid ∈ cs then spliceOne cs (jsIndexOf cs uid) else cs)

/-- `Tasks::updateCompleteness(context, id, completed)`: looks the task up,
requires the caller role to be STUDENT (no ownership or enrollment
check), then inserts or removes the caller id in `completedStudents`
(see `toggleCompleted`) and writes the task back. -/
def updateCompleteness (ctx : Ctx) (id : String) (completed : Bool) (db : DB) :
    Except String Task × List DbWrite :=
  match tasksLookup ctx id db with
  | .error e => (.error e, [])
  | .ok none => (.error "Task not found", [])
  | .ok (some task) =>
    match ctx.session with
    | none => (.error "You are not logged in", [])
    | some u =>
      if u.role ≠ Role.STUDENT then (.error "Only students can update task progress", []) else
      let t2 := { task with
        completedStudents := toggleCompleted u.id completed task.completedStudents }
      (.ok t2, [DbWrite.putTask t2])

/-! ## Helper lemmas -/

theorem putBy_putBy {α : Type} (key : α → String) (l : List α) (x y : α)
    (h : key y = key x) : putBy key (putBy key l x) y = putBy key l y := by
  induction l with
  | nil => simp [putBy, h]
  | cons v tl ih =>
    by_cases hv : key v = key x
    · simp [putBy, hv, h, hv.trans h.symm]
    · have hvy : ¬ key v = key y := fun hc => hv (hc.trans h)
      simp [putBy, hv, hvy, ih]

theorem putBy_fresh {α : Type} (key : α → String) (l : List α) (x : α)
    (h : ∀ v ∈ l, key v ≠ key x) : putBy key l x = l ++ [x] := by
  induction l with
  | nil => rfl
  | cons v tl ih =>
    have hv := h v (List.mem_cons_self v tl)
    simp only [putBy, if_neg hv, List.cons_append]
    rw [ih (fun w hw => h w (List.mem_cons_of_mem v hw))]

theorem find?_putBy {α : Type} (key : α → String) (l : List α) (x : α) (s : String)
    (hs : key x = s) : (putBy key l x).find? (fun v => key v == s) = some x := by
  induction l with
  | nil => simp [putBy, List.find?, hs]
  | cons v tl ih =>
    by_cases hv : key v = key x
    · simp [putBy, hv, List.find?, hs]
    · have hvs : (key v == s) = false := by
        simp only [beq_eq_false_iff_ne, ne_eq]
        exact fun hc => hv (hc.trans hs.symm)
      simp [putBy, hv, List.find?, hvs, ih]

theorem head_filter_putBy {α : Type} (key : α → String) (p : α → Bool)
    (l : List α) (x g0 : α) (hpx : p x = true) (hkey : key x = key g0)
    (hhead : (l.filter p).head? = some g0) :
    ((putBy key l x).filter p).head? = some x := by
  induction l with
  | nil => simp at hhead
  | cons v tl ih =>
    by_cases hv : key v = key x
    · simp [putBy, hv, List.filter_cons, hpx]
    · by_cases hpv : p v = true
      · have : v = g0 := by
          simp [List.filter_cons, hpv] at hhead
          exact hhead
        exact absurd (this ▸ hkey.symm) hv
      · have hpv' : p v = false := by simpa using hpv
        simp only [List.filter_cons, hpv', Bool.false_eq_true, if_false] at hhead
        simp only [putBy, if_neg hv, List.filter_cons, hpv', Bool.false_eq_true, if_false]
        exact ih hhead

theorem spliceOne_cons_succ {α : Type} (v : α) (l : List α) (i : Nat) :
    spliceOne (v :: l) ((i : Int) + 1) = v :: spliceOne l (i : Int) := by
  have h1 : ¬ ((i : Int) + 1 < 0) := by omega
  have h0 : ¬ ((i : Int) < 0) := by omega
  simp only [spliceOne, if_neg h1, if_neg h0]
  have h2 : ((i : Int) + 1).toNat = i + 1 := by omega
  have h3 : ((i : Int)).toNat = i := by omega
  rw [h2, h3]
  simp [List.take_succ_cons, List.drop_succ_cons]

theorem spliceOne_jsIndexOf_of_mem {l : List String} {x : String} (h : x ∈ l) :
    spliceOne l (jsIndexOf l x) = l.erase x := by
  induction l with
  | nil => cases h
  | cons v tl ih =>
    by_cases hv : v = x
    · subst hv
      simp [jsIndexOf, List.findIdx?_cons, spliceOne, List.erase_cons_head]
    · have hmem : x ∈ tl := by
        cases h with
        | head => exact absurd rfl hv
        | tail _ h2 => exact h2
      obtain ⟨i, hi⟩ : ∃ i, tl.findIdx? (fun y => y == x) = some i := by
        have : (tl.findIdx? (fun y => y == x)).isSome = true := by
          rw [List.findIdx?_isSome]
          exact List.any_eq_true.mpr ⟨x, hmem, by simp⟩
        exact Option.isSome_iff_exists.mp this
      have hvx : (v == x) = false := beq_eq_false_iff_ne.mpr hv
      have hji : jsIndexOf (v :: tl) x = (i : Int) + 1 := by
        simp only [jsIndexOf, List.findIdx?_cons, hvx, Bool.false_eq_true, if_false,
          List.findIdx?_succ, hi, Option.map_some, Option.map_some']
        push_cast
        ring
      have hjtl : jsIndexOf tl x = (i : Int) := by simp [jsIndexOf, hi]
      rw [hji, spliceOne_cons_succ, ← hjtl, ih hmem, List.erase_cons_tail]
      simp [hv]

theorem projectUser_idem (ctx : Ctx) (u : User) :
    projectUser ctx (projectUser ctx u) = projectUser ctx u := by
  simp only [projectUser]
  by_cases hd : ctx.includeDependents <;> by_cases hp : ctx.includePasswordHash <;>
    simp [hd, hp]

theorem usersLookup_ok_some {ctx : Ctx} {idArg emailArg : Option String}
    {users : List User} {g : User}
    (h : usersLookup ctx idArg emailArg users = .ok (some g)) :
    projectUser ctx g = g := by
  cases idArg <;> cases emailArg <;> simp only [usersLookup] at h
  case none.none => exact absurd h (by simp)
  all_goals
    injection h with h2
    obtain ⟨g0, _, hpg⟩ := Option.map_eq_some'.mp h2
    rw [← hpg, projectUser_idem]

theorem mem_toggleCompleted_self {uid : String} {completed : Bool} {cs : List String}
    (hnodup : cs.Nodup) : uid ∈ toggleCompleted uid completed cs ↔ completed = true := by
  cases completed with
  | true => by_cases h : uid ∈ cs <;> simp [toggleCompleted, h]
  | false =>
    by_cases h : uid ∈ cs
    · simp only [toggleCompleted, Bool.false_eq_true, if_false, if_pos h]
      rw [spliceOne_jsIndexOf_of_mem h]
      simp [List.Nodup.mem_erase_iff hnodup]
    · simp [toggleCompleted, h]

theorem mem_toggleCompleted_other {uid x : String} {completed : Bool} {cs : List String}
    (hx : x ≠ uid) : x ∈ toggleCompleted uid completed cs ↔ x ∈ cs := by
  cases completed with
  | true =>
    by_cases h : uid ∈ cs
    · simp [toggleCompleted, h]
    · simp [toggleCompleted, h, hx]
  | false =>
    by_cases h : uid ∈ cs
    · simp only [toggleCompleted, Bool.false_eq_true, if_false, if_pos h]
      rw [spliceOne_jsIndexOf_of_mem h]
      exact List.mem_erase_of_ne hx
    · simp [toggleCompleted, h]

theorem toggleCompleted_idem {uid : String} {completed : Bool} {cs : List String}
    (hnodup : cs.Nodup) :
    toggleCompleted uid completed (toggleCompleted uid completed cs) =
      toggleCompleted uid completed cs := by
  cases completed with
  | true =>
    have hm : uid ∈ toggleCompleted uid true cs :=
      (mem_toggleCompleted_self hnodup).mpr rfl
    generalize toggleCompleted uid true cs = X at hm ⊢
    simp [toggleCompleted, hm]
  | false =>
    have hm : uid ∉ toggleCompleted uid false cs := by
      rw [mem_toggleCompleted_self hnodup]
      simp
    generalize toggleCompleted uid false cs = X at hm ⊢
    simp [toggleCompleted, hm]

/-! ## Claim theorems -/

deriving instance DecidableEq for Except

/-- The `Conflict` error raised by `postGrade` for a duplicate entry. -/
def conflictMsg : String := "This grade entry is already posted for the student"

/-- C1: a `postGrade` call stores the grade only if the student is a member
of the `students` set of the classroom of the component at post time (otherwise it
fails), and a second `postGrade` for a (component, student) pair that
already has an entry fails with `Conflict` and appends nothing. -/
theorem postGrade_enrollment_and_conflict (ctx : Ctx) (cid sid : String)
    (score : Int) (comments : String) (db : DB) :
    (∀ g ws, postGrade ctx cid sid score comments db = (.ok g, ws) →
      ∃ comp cls, lookupGradingComponent db.components cid = some comp ∧
        db.classrooms.find? (fun c => c.id == comp.classroom) = some cls ∧
        sid ∈ cls.students) ∧
    (∀ comp, lookupGradingComponent db.components cid = some comp →
      comp.grades.any (fun g => g.student == sid) = true →
      (∀ g ws, postGrade ctx cid sid score comments db ≠ (.ok g, ws)) ∧
      (postGrade ctx cid sid score comments db).2 = []) ∧
    (∀ u comp cls, ctx.session = some u → u.role = Role.EDUCATOR →
      lookupGradingComponent db.components cid = some comp →
      db.classrooms.find? (fun c => c.id == comp.classroom) = some cls →
      cls.instructor = u.id → sid ∈ cls.students →
      comp.grades.any (fun g => g.student == sid) = true →
      postGrade ctx cid sid score comments db = (.error conflictMsg, [])) := by
  refine ⟨?_, ?_, ?_⟩
  · intro g ws hok
    cases hses : ctx.session with
    | none => simp [postGrade, hses] at hok
    | some u =>
      by_cases hrole : u.role = Role.EDUCATOR
      · cases hcomp : lookupGradingComponent db.components cid with
        | none => simp [postGrade, hses, hrole, hcomp] at hok
        | some comp =>
          cases hcls : db.classrooms.find? (fun c => c.id == comp.classroom) with
          | none =>
            simp [postGrade, hses, hrole, hcomp, classroomsLookup, hcls] at hok
          | some cls =>
            by_cases hinstr : cls.instructor = u.id
            · by_cases hmem : sid ∈ cls.students
              · exact ⟨comp, cls, rfl, hcls, hmem⟩
              · simp [postGrade, hses, hrole, hcomp, classroomsLookup, hcls,
                  hinstr, hmem] at hok
            · simp [postGrade, hses, hrole, hcomp, classroomsLookup, hcls, hinstr] at hok
      · simp [postGrade, hses, hrole] at hok
  · intro comp hcomp hdup
    have herr : ∃ e, postGrade ctx cid sid score comments db = (Except.error e, []) := by
      cases hses : ctx.session with
      | none => exact ⟨"You are not logged in", by simp [postGrade, hses]⟩
      | some u =>
        by_cases hrole : u.role = Role.EDUCATOR
        · cases hcls : db.classrooms.find? (fun c => c.id == comp.classroom) with
          | none =>
            exact ⟨"TypeError: classroom is null", by
              simp [postGrade, hses, hrole, hcomp, classroomsLookup, hcls]⟩
          | some cls =>
            by_cases hinstr : cls.instructor = u.id
            · by_cases hmem : sid ∈ cls.students
              · exact ⟨conflictMsg, by
                  simp [postGrade, hses, hrole, hcomp, classroomsLookup, hcls,
                    hinstr, hmem, hdup, conflictMsg]⟩
              · exact ⟨"Student is not enrolled in this class", by
                  simp [postGrade, hses, hrole, hcomp, classroomsLookup, hcls,
                    hinstr, hmem]⟩
            · exact ⟨"Only the instructor of the class can post grades", by
                simp [postGrade, hses, hrole, hcomp, classroomsLookup, hcls, hinstr]⟩
        · exact ⟨"Only educators can add grading components", by
            simp [postGrade, hses, hrole]⟩
    obtain ⟨e, he⟩ := herr
    refine ⟨?_, ?_⟩
    · intro g ws hok
      rw [he] at hok
      simp at hok
    · rw [he]
  · intro u comp cls hses hrole hcomp hcls hinstr hmem hdup
    simp [postGrade, hses, hrole, hcomp, classroomsLookup, hcls, hinstr, hmem, hdup,
      conflictMsg]

/-- C1 witness: a concrete duplicate post fails with `Conflict`, and a
success of a concrete fresh post certifies the enrollment hypothesis. -/
theorem postGrade_enrollment_and_conflict_witness :
    postGrade
      { isUser := true, isSystem := false,
        session := some { id := "e1", role := Role.EDUCATOR },
        includeDependents := false, includePasswordHash := false }
      "comp1" "s1" 90 "redo"
      { users := [], tasks := [],
        classrooms := [{ id := "cls1", title := "Algebra", instructor := "e1",
                         students := ["s1"] }],
        components := [{ id := "comp1", title := "HW", total := Val.num 100,
                         weight := Val.num 1, classroom := "cls1",
                         grades := [{ student := "s1", score := 85, comments := "good" }] }] }
      = (.error conflictMsg, []) := by
  exact (postGrade_enrollment_and_conflict _ "comp1" "s1" 90 "redo" _).2.2
    { id := "e1", role := Role.EDUCATOR }
    { id := "comp1", title := "HW", total := Val.num 100, weight := Val.num 1,
      classroom := "cls1",
      grades := [{ student := "s1", score := 85, comments := "good" }] }
    { id := "cls1", title := "Algebra", instructor := "e1", students := ["s1"] }
    rfl rfl (by decide) (by decide) rfl (by decide) (by decide)

/-- The stored dependents attribute of the user with the given id:
`none` if no such user, `some d` with `d` the attribute otherwise. -/
def storedDependents (db : DB) (gid : String) : Option (Option (List String)) :=
  (db.users.find? (fun v => v.id == gid)).map User.dependents

def c3ctxE : Ctx :=
  { isUser := true, isSystem := false,
    session := some { id := "e1", role := Role.EDUCATOR },
    includeDependents := false, includePasswordHash := false }

def c3ctxS : Ctx :=
  { isUser := true, isSystem := false,
    session := some { id := "s1", role := Role.STUDENT },
    includeDependents := false, includePasswordHash := false }

def c3db : DB :=
  { users := [], tasks := [],
    classrooms := [{ id := "cls1", title := "Algebra", instructor := "e1",
                     students := ["s1"] }],
    components := [{ id := "comp1", title := "Final", total := Val.num 100,
                     weight := Val.num 1, classroom := "cls1", grades := [] }] }

def c3compAfter : Component :=
  { id := "comp1", title := "Final", total := Val.num 100, weight := Val.num 1,
    classroom := "cls1",
    grades := [{ student := "s1", score := 85, comments := "good" }] }

/-- C3: after the instructor posts grade (85, "good") for student s1,
`lookupGrade` called by s1 returns the number 0 — the source combines the
found entry with `| null` (the bitwise or), which coerces the entry object
to 0 — instead of the posted entry. -/
theorem lookupGrade_returns_zero_not_entry :
    postGrade c3ctxE "comp1" "s1" 85 "good" c3db =
      (.ok { student := "s1", score := 85, comments := "good" },
       [DbWrite.putComponent c3compAfter]) ∧
    lookupGrade c3ctxS "comp1" "s1"
        (applyWrites c3db [DbWrite.putComponent c3compAfter]) =
      .ok (JsVal.num 0) ∧
    JsVal.num 0 ≠ JsVal.entry { student := "s1", score := 85, comments := "good" } := by
  decide

def c7ctx : Ctx :=
  { isUser := true, isSystem := false,
    session := some { id := "s2", role := Role.STUDENT },
    includeDependents := false, includePasswordHash := false }

def c7db : DB :=
  { users := [{ id := "g1", email := "g@x.com", firstName := "Gia",
                lastName := "Ruiz", role := Role.GUARDIAN,
                dependents := some ["s1"], passwordHash := some "h" }],
    classrooms := [], components := [], tasks := [] }

/-- C7: student s2 is not in the dependents of guardian g1, yet `removeGuardian`
removes the last entry ("s1"): `dependents.indexOf("s2")` is -1 and
`splice(-1, 1)` deletes the final element.  The dual-mode
users service guards the same splice and is a no-op on the same input. -/
theorem removeGuardian_absent_removes_last :
    storedDependents (applyWrites c7db (removeGuardian c7ctx "g@x.com" c7db).2) "g1" =
      some (some []) ∧
    storedDependents c7db "g1" = some (some ["s1"]) ∧
    "s2" ∉ (["s1"] : List String) ∧
    storedDependents
        (applyWrites c7db (UsersV2.removeGuardian c7ctx "g@x.com" c7db).2) "g1" =
      some (some ["s1"]) := by
  decide

def c8ctx : Ctx :=
  { isUser := true, isSystem := false,
    session := some { id := "e1", role := Role.EDUCATOR },
    includeDependents := false, includePasswordHash := false }

def c8db : DB :=
  { users := [], tasks := [],
    classrooms := [{ id := "cls1", title := "Algebra", instructor := "e1",
                     students := [] }],
    components := [{ id := "comp1", title := "HW", total := Val.num 100,
                     weight := Val.num 1, classroom := "cls1", grades := [] }] }

/-- C8: an authorized sparse-merge update never happens.  The instructor of
the classroom of the component supplies a new title; the call fails (the source
resolves the classroom with `componentId.classroom`, which is `undefined`)
and the store is untouched.  Had the merge been reached, a supplied title
would also overwrite `total` and `weight` (`title || component.total`). -/
theorem updateGradingComponent_never_updates :
    updateGradingComponent c8ctx "comp1" (some "New title") none none c8db =
      (.error "id required", []) ∧
    (c8db.classrooms.find? (fun c => c.id == "cls1")).map Classroom.instructor =
      some "e1" ∧
    applyWrites c8db (updateGradingComponent c8ctx "comp1" (some "New title") none none c8db).2 =
      c8db ∧
    jsOrVal (some "New title") (Val.num 100) = Val.str "New title" := by
  decide

def c9ctx : Ctx :=
  { isUser := true, isSystem := false,
    session := some { id := "bob", role := Role.STUDENT },
    includeDependents := false, includePasswordHash := false }

def c9db : DB :=
  { users := [],
    classrooms := [{ id := "cls1", title := "Algebra", instructor := "e1",
                     students := ["alice"] }],
    components := [],
    tasks := [{ id := "t1", title := "hw", classroom := "cls1",
                deadline := "2020-01-01", student := some "alice",
                completedStudents := [] }] }

/-- C9 counterexample: task t1 is scoped to student alice, yet student bob
— neither the owner nor enrolled in the classroom of the task — successfully
toggles completeness: the source checks only that the caller role is
STUDENT. -/
theorem updateCompleteness_ignores_ownership :
    (updateCompleteness c9ctx "t1" true c9db).1 =
      Except.ok { id := "t1", title := "hw", classroom := "cls1",
                  deadline := "2020-01-01", student := some "alice",
                  completedStudents := ["bob"] } ∧
    (c9db.tasks.find? (fun t => t.id == "t1")).map Task.student =
      some (some "alice") ∧
    "bob" ≠ "alice" ∧
    "bob" ∉ (["alice"] : List String) := by
  decide

/-- C9 (amended): `updateCompleteness` succeeds for any logged-in STUDENT
caller once the task exists — the code performs no ownership or enrollment
check — and a successful call is an idempotent set insert
(`completed = true`) or set remove (`completed = false`) of the caller id
on `completedStudents` (idempotent on duplicate-free completion sets). -/
theorem updateCompleteness_any_student_idempotent (ctx : Ctx) (u : SessionUser)
    (id : String) (completed : Bool) (db : DB) (task : Task)
    (hses : ctx.session = some u) (hrole : u.role = Role.STUDENT)
    (hfind : db.tasks.find? (fun t => t.id == id) = some task)
    (hnodup : task.completedStudents.Nodup) :
    ∃ t2, updateCompleteness ctx id completed db = (.ok t2, [DbWrite.putTask t2]) ∧
      t2.completedStudents = toggleCompleted u.id completed task.completedStudents ∧
      (u.id ∈ t2.completedStudents ↔ completed = true) ∧
      (∀ x, x ≠ u.id → (x ∈ t2.completedStudents ↔ x ∈ task.completedStudents)) ∧
      updateCompleteness ctx id completed (applyWrites db [DbWrite.putTask t2]) =
        (.ok t2, [DbWrite.putTask t2]) ∧
      applyWrites (applyWrites db [DbWrite.putTask t2]) [DbWrite.putTask t2] =
        applyWrites db [DbWrite.putTask t2] ∧
      (∀ ctx2 db2 r w, updateCompleteness ctx2 id completed db2 = (Except.ok r, w) →
        ∃ u2 t3, ctx2.session = some u2 ∧ u2.role = Role.STUDENT ∧
          db2.tasks.find? (fun t => t.id == id) = some t3) := by
  have hstep : ∀ (db3 : DB) (task3 : Task),
      db3.tasks.find? (fun t => t.id == id) = some task3 →
      updateCompleteness ctx id completed db3 =
        (.ok { task3 with
                completedStudents := toggleCompleted u.id completed task3.completedStudents },
         [DbWrite.putTask { task3 with
                completedStudents := toggleCompleted u.id completed task3.completedStudents }]) := by
    intro db3 task3 hfind3
    simp [updateCompleteness, tasksLookup, hses, hfind3, hrole]
  have htid : task.id = id := by simpa using List.find?_some hfind
  set t2 : Task :=
    { task with completedStudents := toggleCompleted u.id completed task.completedStudents }
    with ht2
  have hfind2 : (applyWrites db [DbWrite.putTask t2]).tasks.find?
      (fun t => t.id == id) = some t2 := by
    simp only [applyWrites, List.foldl, applyWrite]
    exact find?_putBy Task.id db.tasks t2 id htid
  refine ⟨t2, hstep db task hfind, rfl, mem_toggleCompleted_self hnodup,
    fun x hx => mem_toggleCompleted_other hx, ?_, ?_, ?_⟩
  · rw [hstep (applyWrites db [DbWrite.putTask t2]) t2 hfind2]
    have hfix : toggleCompleted u.id completed t2.completedStudents =
        t2.completedStudents := toggleCompleted_idem hnodup
    rw [hfix]
  · simp only [applyWrites, List.foldl, applyWrite]
    congr 1
    exact putBy_putBy Task.id db.tasks t2 t2 rfl
  · intro ctx2 db2 r w hok
    cases hses2 : ctx2.session with
    | none => simp [updateCompleteness, tasksLookup, hses2] at hok
    | some u2 =>
      cases hfind3 : db2.tasks.find? (fun t => t.id == id) with
      | none => simp [updateCompleteness, tasksLookup, hses2, hfind3] at hok
      | some t3 =>
        by_cases hrole2 : u2.role = Role.STUDENT
        · exact ⟨u2, t3, rfl, hrole2, rfl⟩
        · simp [updateCompleteness, tasksLookup, hses2, hfind3, hrole2] at hok

/-- C9 witness: the amended statement applied to student bob toggling the
concrete task t1. -/
theorem updateCompleteness_any_student_idempotent_witness :
    ∃ t2, updateCompleteness c9ctx "t1" true c9db = (.ok t2, [DbWrite.putTask t2]) := by
  obtain ⟨t2, h1, -⟩ :=
    updateCompleteness_any_student_idempotent c9ctx ⟨"bob", Role.STUDENT⟩ "t1" true c9db
      ⟨"t1", "hw", "cls1", "2020-01-01", some "alice", []⟩ rfl rfl (by decide) List.nodup_nil
  exact ⟨t2, h1⟩

/-- C10: every successful `addGuardian`/`removeGuardian` call (in both
users-service variants) returns the guardian record with the `dependents`
field stripped (`undefined`), although the operation read and wrote that
field internally. -/
theorem guardianOps_strip_dependents :
    (∀ ctx email db r ws, addGuardian ctx email db = (Except.ok r, ws) →
      r.dependents = none) ∧
    (∀ ctx email db r ws, removeGuardian ctx email db = (Except.ok r, ws) →
      r.dependents = none) ∧
    (∀ ctx email db r ws, UsersV2.addGuardian ctx email db = (Except.ok r, ws) →
      r.dependents = none) ∧
    (∀ ctx email db r ws, UsersV2.removeGuardian ctx email db = (Except.ok r, ws) →
      r.dependents = none) := by
  refine ⟨?_, ?_, ?_, ?_⟩
  · intro ctx email db r ws hok
    unfold addGuardian at hok
    repeat' split at hok
    all_goals try simp_all
    all_goals
      obtain ⟨h1, -⟩ := hok
      subst h1
      rfl
  · intro ctx email db r ws hok
    unfold removeGuardian at hok
    repeat' split at hok
    all_goals try simp_all
    all_goals
      obtain ⟨h1, -⟩ := hok
      subst h1
      rfl
  · intro ctx email db r ws hok
    unfold UsersV2.addGuardian at hok
    repeat' split at hok
    all_goals try simp_all
    all_goals
      obtain ⟨h1, -⟩ := hok
      subst h1
      rfl
  · intro ctx email db r ws hok
    unfold UsersV2.removeGuardian at hok
    repeat' split at hok
    all_goals try simp_all
    all_goals
      obtain ⟨h1, -⟩ := hok
      subst h1
      rfl

def c10r : User :=
  { id := "g1", email := "g@x.com", firstName := "Gia", lastName := "Ruiz",
    role := Role.GUARDIAN, dependents := none, passwordHash := none }

def c10stored : User :=
  { id := "g1", email := "g@x.com", firstName := "Gia", lastName := "Ruiz",
    role := Role.GUARDIAN, dependents := some ["s1", "s2"], passwordHash := none }

/-- C10 witness: a concrete successful `addGuardian` call, with the
stripping fact obtained from the claim theorem. -/
theorem guardianOps_strip_dependents_witness :
    addGuardian c7ctx "g@x.com" c7db = (Except.ok c10r, [DbWrite.putUser c10stored]) ∧
    c10r.dependents = none :=
  ⟨by decide,
   guardianOps_strip_dependents.1 c7ctx "g@x.com" c7db c10r
     [DbWrite.putUser c10stored] (by decide)⟩

/-- Componentwise agreement of everything the grade reports of a classroom
depend on except grade entries of other students: metadata equal, and the
entries of the authorized student equal. -/
abbrev ComponentMetaEq (sid : String) (c c2 : Component) : Prop :=
  c2.id = c.id ∧ c2.title = c.title ∧ c2.total = c.total ∧ c2.weight = c.weight ∧
  c2.classroom = c.classroom ∧
  c2.grades.filter (fun g => g.student == sid) = c.grades.filter (fun g => g.student == sid)

/-- Two database states that differ at most in grade entries of students
other than `sid`. -/
def VariesOnlyOthers (sid : String) (db db2 : DB) : Prop :=
  db2.users = db.users ∧ db2.classrooms = db.classrooms ∧ db2.tasks = db.tasks ∧
  List.Forall₂ (ComponentMetaEq sid) db.components db2.components

theorem filter_classroom_isEmpty_eq {sid classroomId : String}
    {l l2 : List Component} (h : List.Forall₂ (ComponentMetaEq sid) l l2) :
    (l2.filter (fun c => c.classroom == classroomId)).isEmpty =
    (l.filter (fun c => c.classroom == classroomId)).isEmpty := by
  induction h with
  | nil => rfl
  | cons hR hRest ih =>
    rename_i a b l1 l2x
    obtain ⟨-, -, -, -, hcls, -⟩ := hR
    rw [List.filter_cons, List.filter_cons, hcls]
    by_cases hc : (a.classroom == classroomId) = true
    · simp [hc]
    · have hc2 : (a.classroom == classroomId) = false := by simpa using hc
      simp [hc2, ih]

/-- C2: a GUARDIAN call to `listGrades` that succeeds returns no other
student grade data, and its result is unchanged when other student grade
entries are varied arbitrarily. -/
theorem listGrades_guardian_confidential (ctx : Ctx) (u : SessionUser)
    (classroomId studentId : String) (db db2 : DB) (r : List GradeReport)
    (hses : ctx.session = some u) (hrole : u.role = Role.GUARDIAN)
    (hok : listGrades ctx classroomId studentId db = .ok r)
    (hvary : VariesOnlyOthers studentId db db2) :
    (∀ rep ∈ r, ∀ g, rep.grade = some g → g.student = studentId) ∧
    listGrades ctx classroomId studentId db2 = .ok r := by
  obtain ⟨husers, hclassrooms, -, hcomps⟩ := hvary
  by_cases hguard : u.id ∈ listGuardiansByDependent db.users studentId
  · cases hempty : (db.components.filter (fun c => c.classroom == classroomId)).isEmpty with
    | false =>
      exfalso
      simp [listGrades, classroomsLookup, hses, hrole, hguard, hempty] at hok
    | true =>
      have hr : r = [] := by
        simp [listGrades, classroomsLookup, hses, hrole, hguard, hempty] at hok
        exact hok
      subst hr
      refine ⟨by simp, ?_⟩
      have hempty2 : (db2.components.filter (fun c => c.classroom == classroomId)).isEmpty
          = true := by
        rw [filter_classroom_isEmpty_eq hcomps, hempty]
      simp [listGrades, classroomsLookup, hses, hrole, husers, hguard, hempty2]
  · exfalso
    simp [listGrades, classroomsLookup, hses, hrole, hguard] at hok

def c2ctx : Ctx :=
  { isUser := true, isSystem := false,
    session := some { id := "g1", role := Role.GUARDIAN },
    includeDependents := false, includePasswordHash := false }

def c2db : DB :=
  { users := [{ id := "g1", email := "g@x.com", firstName := "Gia",
                lastName := "Ruiz", role := Role.GUARDIAN,
                dependents := some ["s1"], passwordHash := some "h" }],
    classrooms := [{ id := "cls1", title := "Algebra", instructor := "e1",
                     students := ["s1", "s9"] }],
    components := [{ id := "comp9", title := "Quiz", total := Val.num 10,
                     weight := Val.num 1, classroom := "cls9",
                     grades := [{ student := "s9", score := 5, comments := "meh" }] }],
    tasks := [] }

/-- `c2db` with the grade entry of the other student changed. -/
def c2db2 : DB :=
  { c2db with
    components := [{ id := "comp9", title := "Quiz", total := Val.num 10,
                     weight := Val.num 1, classroom := "cls9",
                     grades := [{ student := "s9", score := 9, comments := "ok" }] }] }

/-- C2 witness: a concrete guardian call succeeding on both varied states. -/
theorem listGrades_guardian_confidential_witness :
    (∀ rep ∈ ([] : List GradeReport), ∀ g, rep.grade = some g → g.student = "s1") ∧
    listGrades c2ctx "cls1" "s1" c2db2 = .ok [] :=
  listGrades_guardian_confidential c2ctx ⟨"g1", Role.GUARDIAN⟩ "cls1" "s1" c2db c2db2 []
    rfl rfl (by decide)
    ⟨rfl, rfl, rfl, List.Forall₂.cons (by decide) List.Forall₂.nil⟩

/-- The write discipline of an operation run: at most one store write, and
a failing run wrote nothing — the state after applying its writes is
exactly the state before the call. -/
def WriteDiscipline {α : Type} (db : DB) (r : Except String α × List DbWrite) : Prop :=
  (r.2 = [] ∨ ∃ w, r.2 = [w]) ∧
  (∀ e, r.1 = Except.error e → r.2 = [] ∧ applyWrites db r.2 = db)

/-- C4: every modelled mutating operation performs at most one write to its
own collection, only after all checks succeeded (an error result always
comes with zero writes), and a failed call leaves the state untouched. -/
theorem singleWriteAtomicity :
    (∀ ctx cid sid score comments db,
      WriteDiscipline db (postGrade ctx cid sid score comments db)) ∧
    (∀ ctx id email db, WriteDiscipline db (enroll ctx id email db)) ∧
    (∀ ctx email firstName lastName role password genId db,
      WriteDiscipline db (signup ctx email firstName lastName role password genId db)) ∧
    (∀ ctx email db, WriteDiscipline db (addGuardian ctx email db)) ∧
    (∀ ctx email db, WriteDiscipline db (removeGuardian ctx email db)) ∧
    (∀ ctx email db, WriteDiscipline db (UsersV2.addGuardian ctx email db)) ∧
    (∀ ctx email db, WriteDiscipline db (UsersV2.removeGuardian ctx email db)) ∧
    (∀ ctx cid titleArg totalArg weightArg db,
      WriteDiscipline db (updateGradingComponent ctx cid titleArg totalArg weightArg db)) ∧
    (∀ ctx id completed db, WriteDiscipline db (updateCompleteness ctx id completed db)) := by
  refine ⟨?_, ?_, ?_, ?_, ?_, ?_, ?_, ?_, ?_⟩
  · intro ctx cid sid score comments db
    unfold postGrade
    repeat' split
    all_goals first
      | exact ⟨Or.inl rfl, fun e he => ⟨rfl, rfl⟩⟩
      | exact ⟨Or.inr ⟨_, rfl⟩, fun e he => by simp at he⟩
  · intro ctx id email db
    unfold enroll
    repeat' split
    all_goals first
      | exact ⟨Or.inl rfl, fun e he => ⟨rfl, rfl⟩⟩
      | exact ⟨Or.inr ⟨_, rfl⟩, fun e he => by simp at he⟩
  · intro ctx email firstName lastName role password genId db
    unfold signup
    repeat' split
    all_goals first
      | exact ⟨Or.inl rfl, fun e he => ⟨rfl, rfl⟩⟩
      | exact ⟨Or.inr ⟨_, rfl⟩, fun e he => by simp at he⟩
  · intro ctx email db
    unfold addGuardian
    repeat' split
    all_goals first
      | exact ⟨Or.inl rfl, fun e he => ⟨rfl, rfl⟩⟩
      | exact ⟨Or.inr ⟨_, rfl⟩, fun e he => by simp at he⟩
  · intro ctx email db
    unfold removeGuardian
    repeat' split
    all_goals first
      | exact ⟨Or.inl rfl, fun e he => ⟨rfl, rfl⟩⟩
      | exact ⟨Or.inr ⟨_, rfl⟩, fun e he => by simp at he⟩
  · intro ctx email db
    unfold UsersV2.addGuardian
    repeat' split
    all_goals first
      | exact ⟨Or.inl rfl, fun e he => ⟨rfl, rfl⟩⟩
      | exact ⟨Or.inr ⟨_, rfl⟩, fun e he => by simp at he⟩
  · intro ctx email db
    unfold UsersV2.removeGuardian
    repeat' split
    all_goals first
      | exact ⟨Or.inl rfl, fun e he => ⟨rfl, rfl⟩⟩
      | exact ⟨Or.inr ⟨_, rfl⟩, fun e he => by simp at he⟩
  · intro ctx cid titleArg totalArg weightArg db
    unfold updateGradingComponent
    repeat' split
    all_goals first
      | exact ⟨Or.inl rfl, fun e he => ⟨rfl, rfl⟩⟩
      | exact ⟨Or.inr ⟨_, rfl⟩, fun e he => by simp at he⟩
  · intro ctx id completed db
    unfold updateCompleteness
    repeat' split
    all_goals first
      | exact ⟨Or.inl rfl, fun e he => ⟨rfl, rfl⟩⟩
      | exact ⟨Or.inr ⟨_, rfl⟩, fun e he => by simp at he⟩

/-- C4 witness: a failing call (no session) writes nothing and leaves the
state untouched. -/
theorem singleWriteAtomicity_witness :
    (postGrade internalCtx "comp1" "s1" 0 "x" c3db).2 = [] ∧
    applyWrites c3db (postGrade internalCtx "comp1" "s1" 0 "x" c3db).2 = c3db :=
  (singleWriteAtomicity.1 internalCtx "comp1" "s1" 0 "x" c3db).2
    "You are not logged in" (by decide)

/-- Agreement on the non-sensitive identity fields of a user record. -/
def sameIdentity (a b : User) : Prop :=
  a.id = b.id ∧ a.email = b.email ∧ a.firstName = b.firstName ∧
  a.lastName = b.lastName ∧ a.role = b.role

theorem head_filter_append_single {p : User → Bool} {L : List User} {x : User}
    (hold : ∀ v ∈ L, p v = false) (hx : p x = true) :
    ((L ++ [x]).filter p).head? = some x := by
  induction L with
  | nil => simp [List.filter_cons, hx]
  | cons v tl ih =>
    have hv := hold v (List.mem_cons_self v tl)
    simp only [List.cons_append, List.filter_cons, hv, Bool.false_eq_true, if_false]
    exact ih (fun w hw => hold w (List.mem_cons_of_mem v hw))

theorem signup_ok_elim {ctx : Ctx} {email firstName lastName password genId : String}
    {role : Role} {db : DB} {u : User} {ws : List DbWrite}
    (hok : signup ctx email firstName lastName role password genId db = (Except.ok u, ws)) :
    u = { id := jsToLower genId, email := jsToLower email, firstName := firstName,
          lastName := lastName, role := role,
          dependents := if role = Role.GUARDIAN then some [] else none,
          passwordHash := none } ∧
    ws = [DbWrite.putUser
      { id := jsToLower genId, email := jsToLower email, firstName := firstName,
        lastName := lastName, role := role,
        dependents := if role = Role.GUARDIAN then some [] else none,
        passwordHash := some (bcryptHash password) }] ∧
    (∀ v ∈ db.users, v.id ≠ "foobar" ∧ v.email ≠ jsToLower email) := by
  unfold signup at hok
  cases hlk : usersLookup ctx none (some email) db.users with
  | error e => rw [hlk] at hok; simp at hok
  | ok og =>
    cases og with
    | some v => rw [hlk] at hok; simp at hok
    | none =>
      rw [hlk] at hok
      simp only [Prod.mk.injEq, Except.ok.injEq] at hok
      obtain ⟨h1, h2⟩ := hok
      refine ⟨h1.symm, h2.symm, ?_⟩
      simp only [usersLookup, Option.isSome_none, Bool.false_and, Bool.and_self,
        if_false, Except.ok.injEq, Option.map_eq_none', List.head?_eq_none_iff,
        Option.map_none', Option.getD_none, Option.map_some', Option.getD_some] at hlk
      have hnil : db.users.filter
          (fun v => decide (v.id = "foobar" ∨ v.email = jsToLower email)) = [] := by
        simpa using hlk
      intro v hv
      have := List.filter_eq_nil_iff.mp hnil v hv
      simp only [decide_eq_true_eq] at this
      exact ⟨fun hc => this (Or.inl hc), fun hc => this (Or.inr hc)⟩

/-- C5: after a successful signup, looking the user up by the returned id
or by the case-folded email returns a record with the same identity fields,
and the result carries no `passwordHash` unless the lookup context requests
it. -/
theorem signup_lookup_roundtrip (ctx ctx2 : Ctx)
    (email firstName lastName password genId : String) (role : Role) (db : DB)
    (u : User) (ws : List DbWrite)
    (hok : signup ctx email firstName lastName role password genId db = (Except.ok u, ws))
    (hfresh : ∀ v ∈ db.users, v.id ≠ jsToLower genId)
    (hfoobar : ∀ v ∈ db.users, v.email ≠ "foobar") :
    ∃ r1 r2,
      usersLookup ctx2 (some u.id) none (applyWrites db ws).users = .ok (some r1) ∧
      usersLookup ctx2 none (some u.email) (applyWrites db ws).users = .ok (some r2) ∧
      sameIdentity r1 u ∧ sameIdentity r2 u ∧
      (ctx2.includePasswordHash = false → r1.passwordHash = none) ∧
      (ctx2.includePasswordHash = false → r2.passwordHash = none) := by
  obtain ⟨hu, hws, hnone⟩ := signup_ok_elim hok
  subst hu
  subst hws
  set stored : User :=
    { id := jsToLower genId, email := jsToLower email, firstName := firstName,
      lastName := lastName, role := role,
      dependents := if role = Role.GUARDIAN then some [] else none,
      passwordHash := some (bcryptHash password) } with hstored
  have husers : (applyWrites db [DbWrite.putUser stored]).users = db.users ++ [stored] := by
    simp only [applyWrites, List.foldl, applyWrite]
    exact putBy_fresh User.id db.users stored (fun v hv => hfresh v hv)
  refine ⟨projectUser ctx2 stored, projectUser ctx2 stored, ?_, ?_, ?_, ?_, ?_, ?_⟩
  · show usersLookup ctx2 (some (jsToLower genId)) none _ = _
    simp only [usersLookup, husers, Option.map_some', Option.getD_some,
      Option.map_none', Option.getD_none, Option.isSome_some, Option.isSome_none,
      Bool.and_false, Bool.false_eq_true, if_false, Except.ok.injEq, jsToLower_idem]
    rw [@head_filter_append_single
      (fun v => decide (v.id = jsToLower genId ∨ v.email = "foobar")) db.users stored
      (fun v hv => by simp [hfresh v hv, hfoobar v hv])
      (by simp)]
    rfl
  · show usersLookup ctx2 none (some (jsToLower email)) _ = _
    simp only [usersLookup, husers, Option.map_some', Option.getD_some,
      Option.map_none', Option.getD_none, Option.isSome_some, Option.isSome_none,
      Bool.false_and, Bool.false_eq_true, if_false, Except.ok.injEq, jsToLower_idem]
    rw [@head_filter_append_single
      (fun v => decide (v.id = "foobar" ∨ v.email = jsToLower email)) db.users stored
      (fun v hv => by simp [(hnone v hv).1, (hnone v hv).2])
      (by simp)]
    rfl
  · exact ⟨by simp [projectUser], by simp [projectUser], by simp [projectUser],
      by simp [projectUser], by simp [projectUser]⟩
  · exact ⟨by simp [projectUser], by simp [projectUser], by simp [projectUser],
      by simp [projectUser], by simp [projectUser]⟩
  · intro hpw
    simp [projectUser, hpw]
  · intro hpw
    simp [projectUser, hpw]

def c5ctx : Ctx :=
  { isUser := true, isSystem := false, session := none,
    includeDependents := false, includePasswordHash := false }

def c5u : User :=
  { id := jsToLower "AAAA-BBBB", email := jsToLower "Ed@X.com", firstName := "Ed",
    lastName := "Ucator", role := Role.EDUCATOR, dependents := none,
    passwordHash := none }

def c5stored : User := { c5u with passwordHash := some (bcryptHash "pw12345") }

def c5empty : DB := { users := [], classrooms := [], components := [], tasks := [] }

/-- C5 witness: a concrete signup into an empty store, looked up both ways. -/
theorem signup_lookup_roundtrip_witness :
    ∃ r1 r2,
      usersLookup c5ctx (some c5u.id) none
        (applyWrites c5empty [DbWrite.putUser c5stored]).users = .ok (some r1) ∧
      usersLookup c5ctx none (some c5u.email)
        (applyWrites c5empty [DbWrite.putUser c5stored]).users = .ok (some r2) ∧
      sameIdentity r1 c5u ∧ sameIdentity r2 c5u ∧
      (c5ctx.includePasswordHash = false → r1.passwordHash = none) ∧
      (c5ctx.includePasswordHash = false → r2.passwordHash = none) :=
  signup_lookup_roundtrip c5ctx c5ctx "Ed@X.com" "Ed" "Ucator" "pw12345" "AAAA-BBBB"
    Role.EDUCATOR c5empty c5u [DbWrite.putUser c5stored] (by decide)
    (by simp [c5empty]) (by simp [c5empty])

def runAddGuardian (ctx : Ctx) (email : String) (db : DB) : DB :=
  applyWrites db (addGuardian ctx email db).2

def runRemoveGuardian (ctx : Ctx) (email : String) (db : DB) : DB :=
  applyWrites db (removeGuardian ctx email db).2

def c6ctx : Ctx :=
  { isUser := true, isSystem := false,
    session := some { id := "s1", role := Role.STUDENT },
    includeDependents := false, includePasswordHash := false }

def c6db : DB :=
  { users := [{ id := "g1", email := "g@x.com", firstName := "Gia",
                lastName := "Ruiz", role := Role.GUARDIAN,
                dependents := some ["s1"], passwordHash := some "h" }],
    classrooms := [], components := [], tasks := [] }

/-- C6 counterexample: when the caller is already one of the dependents of
the guardian, `addGuardian` is a no-op but the following `removeGuardian`
still deletes the entry, so the pair does not restore the original
dependents set. -/
theorem addRemove_not_restoring_when_already_dependent :
    storedDependents
      (runRemoveGuardian c6ctx "g@x.com" (runAddGuardian c6ctx "g@x.com" c6db)) "g1" =
      some (some []) ∧
    storedDependents c6db "g1" = some (some ["s1"]) ∧
    some (some ([] : List String)) ≠ some (some ["s1"]) := by
  decide

theorem usersLookup_email_elim {ctx : Ctx} {email : String} {users : List User}
    {g : User} (h : usersLookup ctx none (some email) users = .ok (some g)) :
    ∃ g0, (users.filter
        (fun v => decide (v.id = "foobar" ∨ v.email = jsToLower email))).head? = some g0 ∧
      projectUser ctx g0 = g := by
  simp only [usersLookup, Option.map_none', Option.getD_none, Option.map_some',
    Option.getD_some, Option.isSome_none, Bool.false_and, Bool.false_eq_true,
    if_false, Except.ok.injEq] at h
  exact Option.map_eq_some'.mp h

theorem usersLookup_email_after_put {ctx : Ctx} {email : String} {users : List User}
    {g g1 : User}
    (hl : usersLookup ctx none (some email) users = .ok (some g))
    (hid : g1.id = g.id) (hemail : g1.email = g.email) :
    usersLookup ctx none (some email) (putBy User.id users g1) =
      .ok (some (projectUser ctx g1)) := by
  obtain ⟨g0, hhead, hproj⟩ := usersLookup_email_elim hl
  have hg0id : g.id = g0.id := by rw [← hproj]; rfl
  have hg0email : g.email = g0.email := by rw [← hproj]; rfl
  have hmem : g0 ∈ users.filter
      (fun v => decide (v.id = "foobar" ∨ v.email = jsToLower email)) :=
    List.mem_of_mem_head? (by rw [hhead]; rfl)
  have hpg0 : (decide (g0.id = "foobar" ∨ g0.email = jsToLower email)) = true :=
    (List.mem_filter.mp hmem).2
  have hpg1 : (decide (g1.id = "foobar" ∨ g1.email = jsToLower email)) = true := by
    rw [hid, hemail, hg0id, hg0email]
    exact hpg0
  have hnew := head_filter_putBy User.id
    (fun v => decide (v.id = "foobar" ∨ v.email = jsToLower email))
    users g1 g0 hpg1 (by rw [hid, hg0id]) hhead
  simp only [usersLookup, Option.map_none', Option.getD_none, Option.map_some',
    Option.getD_some, Option.isSome_none, Bool.false_and, Bool.false_eq_true,
    if_false, Except.ok.injEq, hnew, Option.map_some]

theorem addGuardian_eq {ciu cis cincd cincp : Bool} {u : SessionUser}
    {email : String} {db : DB} {g : User} {deps : List String}
    (hrole : u.role = Role.STUDENT)
    (hlk : usersLookup ⟨ciu, cis, some u, true, cincp⟩ none (some email) db.users =
      Except.ok (some g))
    (hg : g.role = Role.GUARDIAN) (hdeps : g.dependents = some deps) :
    addGuardian ⟨ciu, cis, some u, cincd, cincp⟩ email db =
      (.ok { g with dependents := none },
       [DbWrite.putUser
         { g with dependents := some (if u.id ∈ deps then deps else deps ++ [u.id]) }]) := by
  simp [addGuardian, hrole, hlk, hg, hdeps]

theorem removeGuardian_eq {ciu cis cincd cincp : Bool} {u : SessionUser}
    {email : String} {db : DB} {g : User} {deps : List String}
    (hrole : u.role = Role.STUDENT)
    (hlk : usersLookup ⟨ciu, cis, some u, true, cincp⟩ none (some email) db.users =
      Except.ok (some g))
    (hg : g.role = Role.GUARDIAN) (hdeps : g.dependents = some deps) :
    removeGuardian ⟨ciu, cis, some u, cincd, cincp⟩ email db =
      (.ok { g with dependents := none },
       [DbWrite.putUser
         { g with dependents := some (spliceOne deps (jsIndexOf deps u.id)) }]) := by
  simp [removeGuardian, hrole, hlk, hg, hdeps]

/-- C6 (amended): calling `addGuardian` twice leaves the state exactly as
after one call; `addGuardian` then `removeGuardian` restores the stored
dependents set of the guardian provided the caller was not already a dependent (if
they were, the remove still deletes the entry — see the counterexample). -/
theorem addGuardian_algebra (ctx : Ctx) (u : SessionUser) (email : String) (db : DB)
    (g : User) (deps : List String)
    (hses : ctx.session = some u) (hrole : u.role = Role.STUDENT)
    (hlookup : usersLookup { ctx with includeDependents := true } none (some email)
      db.users = .ok (some g))
    (hg : g.role = Role.GUARDIAN) (hdeps : g.dependents = some deps)
    (hpre : storedDependents db g.id = some (some deps)) :
    runAddGuardian ctx email (runAddGuardian ctx email db) =
      runAddGuardian ctx email db ∧
    (u.id ∉ deps →
      storedDependents (runRemoveGuardian ctx email (runAddGuardian ctx email db)) g.id =
        storedDependents db g.id) := by
  obtain ⟨ciu, cis, csess, cincd, cincp⟩ := ctx
  have hs2 : csess = some u := hses
  subst hs2
  have hlk : usersLookup ⟨ciu, cis, some u, true, cincp⟩ none (some email) db.users =
      Except.ok (some g) := hlookup
  have hfix : projectUser ⟨ciu, cis, some u, true, cincp⟩ g = g := usersLookup_ok_some hlk
  have hpw : (if cincp then g.passwordHash else none) = g.passwordHash :=
    congrArg User.passwordHash hfix
  have hadd := @addGuardian_eq ciu cis cincd cincp u email db g deps hrole hlk hg hdeps
  generalize hd2 : (if u.id ∈ deps then deps else deps ++ [u.id]) = deps2 at hadd
  have hmem2 : u.id ∈ deps2 := by
    rw [← hd2]
    by_cases h : u.id ∈ deps
    · simp only [if_pos h]
      exact h
    · simp [h]
  have hrun1 : runAddGuardian ⟨ciu, cis, some u, cincd, cincp⟩ email db =
      { db with users := putBy User.id db.users { g with dependents := some deps2 } } := by
    unfold runAddGuardian
    rw [hadd]
    rfl
  have hproj1 : projectUser ⟨ciu, cis, some u, true, cincp⟩
      { g with dependents := some deps2 } = { g with dependents := some deps2 } := by
    simp only [projectUser]
    simp [hpw]
  have hlk2 : usersLookup ⟨ciu, cis, some u, true, cincp⟩ none (some email)
      (putBy User.id db.users { g with dependents := some deps2 }) =
      Except.ok (some { g with dependents := some deps2 }) := by
    have h := @usersLookup_email_after_put ⟨ciu, cis, some u, true, cincp⟩ email
      db.users g { g with dependents := some deps2 } hlk rfl rfl
    rw [h, hproj1]
  have hg1role : ({ g with dependents := some deps2 } : User).role = Role.GUARDIAN := hg
  have hg1deps : ({ g with dependents := some deps2 } : User).dependents = some deps2 := rfl
  constructor
  · have hadd2 := @addGuardian_eq ciu cis cincd cincp u email
      { db with users := putBy User.id db.users { g with dependents := some deps2 } }
      { g with dependents := some deps2 } deps2 hrole hlk2 hg1role hg1deps
    rw [if_pos hmem2] at hadd2
    have hcoll : ({ { g with dependents := some deps2 } with dependents := some deps2 } : User)
        = { g with dependents := some deps2 } := rfl
    rw [hcoll] at hadd2
    rw [hrun1]
    unfold runAddGuardian
    rw [hadd2]
    simp only [applyWrites, List.foldl, applyWrite]
    rw [putBy_putBy User.id db.users _ _ rfl]
  · intro hnot
    have hd2x : deps2 = deps ++ [u.id] := by rw [← hd2, if_neg hnot]
    have hsplice : spliceOne deps2 (jsIndexOf deps2 u.id) = deps := by
      rw [spliceOne_jsIndexOf_of_mem hmem2, hd2x, List.erase_append_right _ hnot,
        List.erase_cons_head, List.append_nil]
    have hrem := @removeGuardian_eq ciu cis cincd cincp u email
      { db with users := putBy User.id db.users { g with dependents := some deps2 } }
      { g with dependents := some deps2 } deps2 hrole hlk2 hg1role hg1deps
    rw [hsplice] at hrem
    have hback : ({ { g with dependents := some deps2 } with dependents := some deps } : User)
        = g := by
      show ({ g with dependents := some deps } : User) = g
      rw [← hdeps]
    rw [hback] at hrem
    rw [hrun1]
    unfold runRemoveGuardian
    rw [hrem]
    unfold storedDependents
    simp only [applyWrites, List.foldl, applyWrite]
    rw [putBy_putBy User.id db.users { g with dependents := some deps2 } g rfl]
    have hpre2 : Option.map User.dependents
        (List.find? (fun v => v.id == g.id) db.users) = some (some deps) := hpre
    rw [hpre2, find?_putBy User.id db.users g g.id rfl]
    simp [hdeps]

/-- C6 witness: the amended statement applied to a concrete student not yet
a dependent of the concrete guardian. -/
theorem addGuardian_algebra_witness :
    runAddGuardian c7ctx "g@x.com" (runAddGuardian c7ctx "g@x.com" c7db) =
      runAddGuardian c7ctx "g@x.com" c7db ∧
    ("s2" ∉ (["s1"] : List String) →
      storedDependents (runRemoveGuardian c7ctx "g@x.com"
        (runAddGuardian c7ctx "g@x.com" c7db)) "g1" = storedDependents c7db "g1") := by
  have h := addGuardian_algebra c7ctx ⟨"s2", Role.STUDENT⟩ "g@x.com" c7db
    { id := "g1", email := "g@x.com", firstName := "Gia", lastName := "Ruiz",
      role := Role.GUARDIAN, dependents := some ["s1"], passwordHash := none }
    ["s1"] rfl rfl (by decide) rfl rfl (by decide)
  exact h

end EduMonitor
